import Mathlib

/-!
Shallow embedding of `pkg/verify/tlog.go` from sigstore-go: the
`VerifyArtifactTransparencyLog` operation and its helpers.

External collaborators (structural validation, SET verification, Merkle
inclusion verification, verifier construction, the Rekor remote client)
are modelled as oracle functions collected in an `Env` record: the Go code
consumes them through narrow interfaces and their internals are out of
scope.  Byte strings are `List Nat`, times and log indices are `Int`,
opaque handles (public keys, hash functions, verifiers, clients, remote
records) are `Nat`.  Fallible Go calls return `Except String`.
-/

namespace Tlog

/-- Bytes, as in Go `[]byte`. -/
abbrev Bytes := List Nat

/-- One transparency-log entry of the bundle (`tlog.Entry` capability set):
identity `(logKeyID, logIndex)`, integrated time, signature and public key
bytes, and the two inclusion-evidence flags. -/
structure LogEntry where
  logKeyID : Bytes
  logIndex : Int
  integratedTime : Int
  signature : Bytes
  publicKey : Bytes
  hasInclusionPromise : Bool
  hasInclusionProof : Bool
deriving DecidableEq, Repr

/-- Per-log trusted verification material (`root.TransparencyLog`):
base URL, public key and signature hash function (opaque handles). -/
structure TransparencyLog where
  baseURL : String
  publicKey : Nat
  signatureHashFunc : Nat
deriving DecidableEq, Repr

/-- The trusted material: `RekorLogs()` is a mapping from hex-encoded log
key ID to the log's verification material, modelled as an association
list. -/
structure TrustedMaterial where
  rekorLogs : List (String × TransparencyLog)

/-- The artifact's signature content: `Signature()` bytes. -/
structure SignatureContent where
  signature : Bytes

/-- The artifact's verification content: `CompareKey` and `ValidAtTime`
predicates over the trusted material. -/
structure VerificationContent where
  compareKey : Bytes → TrustedMaterial → Bool
  validAtTime : Int → TrustedMaterial → Bool

/-- The signed entity under verification: its tlog entries, signature
content and verification content accessors, each fallible as in Go. -/
structure SignedEntity where
  tlogEntries : Except String (List LogEntry)
  signatureContent : Except String SignatureContent
  verificationContent : Except String VerificationContent

/-- Output timestamp `{Time, URI}`. -/
structure Timestamp where
  time : Int
  uri : String
deriving DecidableEq, Repr

/-- Oracles for the externally supplied routines the Go code delegates to:
`tlog.ValidateEntry`, `tlog.VerifySET`, `signature.LoadVerifier` (via
`getVerifier`), `tlog.VerifyInclusion`, the Rekor client getter, the
remote index query, and `rekorVerify.VerifyLogEntry`. -/
structure Env where
  validateEntry : LogEntry → Except String Unit
  verifySET : LogEntry → List (String × TransparencyLog) → Except String Unit
  getVerifier : Nat → Nat → Except String Nat
  verifyInclusion : LogEntry → Nat → Except String Unit
  getClient : String → Except String Nat
  getLogEntryByIndex : Nat → Int → Except String (List Nat)
  verifyLogEntry : Nat → Nat → Except String Unit

/-- `maxAllowedTlogEntries` from the source. -/
def maxAllowedTlogEntries : Nat := 32

/-- One lowercase hex digit, as produced by Go `hex.EncodeToString`. -/
def hexChar (n : Nat) : Char :=
  if n < 10 then Char.ofNat (48 + n) else Char.ofNat (87 + n)

/-- Hex-encode one byte into two lowercase digits. -/
def hexEncodeByte (b : Nat) : List Char :=
  [hexChar (b / 16 % 16), hexChar (b % 16)]

/-- Go `hex.EncodeToString` over a byte string. -/
def hexEncode (bs : Bytes) : String :=
  String.mk (bs.flatMap hexEncodeByte)

/-- Identity comparison of two entries, as in the duplicate scan:
`LogKeyID` equal and `LogIndex` equal. -/
def sameIdentity (a b : LogEntry) : Bool :=
  a.logKeyID == b.logKeyID && a.logIndex == b.logIndex

/-- The nested all-pairs duplicate scan (`i < j`) of the source. -/
def hasDuplicateEntries : List LogEntry → Bool
  | [] => false
  | e :: rest => rest.any (sameIdentity e) || hasDuplicateEntries rest

/-- Outcome of processing one entry in the loop: skipped (`continue`), or
verified together with the timestamps it appended. -/
inductive EntryOutcome where
  | skipped : EntryOutcome
  | verified : List Timestamp → EntryOutcome
deriving DecidableEq, Repr

/-- The three consistency checks run after either verification branch:
signature byte-equality, `CompareKey`, `ValidAtTime`; each failure is the
corresponding fatal error from the source. -/
def checkConsistency (entry : LogEntry) (entitySignature : Bytes)
    (verificationContent : VerificationContent) (trustedMaterial : TrustedMaterial)
    (ts : List Timestamp) : Except String EntryOutcome :=
  if !(entry.signature == entitySignature) then
    .error "transparency log signature does not match"
  else if !(verificationContent.compareKey entry.publicKey trustedMaterial) then
    .error "transparency log certificate does not match"
  else if !(verificationContent.validAtTime entry.integratedTime trustedMaterial) then
    .error "integrated time outside certificate validity"
  else
    .ok (.verified ts)

/-- The loop over `resp.Payload` in the online branch: every returned
record must pass `rekorVerify.VerifyLogEntry`. -/
def verifyRecords (env : Env) (records : List Nat) (verifier : Nat) :
    Except String Unit :=
  match records with
  | [] => .ok ()
  | v :: rest =>
    match env.verifyLogEntry v verifier with
    | .error e => .error e
    | .ok _ => verifyRecords env rest verifier

/-- The body of the per-entry loop of `VerifyArtifactTransparencyLog`:
structural validation, trusted-log lookup, the offline (promise/proof) or
online (remote fetch) branch, then the consistency checks. -/
def processEntry (env : Env) (trustedMaterial : TrustedMaterial)
    (entitySignature : Bytes) (verificationContent : VerificationContent)
    (trustIntegratedTime online : Bool) (entry : LogEntry) :
    Except String EntryOutcome :=
  match env.validateEntry entry with
  | .error e => .error e
  | .ok _ =>
    let rekorLogs := trustedMaterial.rekorLogs
    let hex64Key := hexEncode entry.logKeyID
    match rekorLogs.lookup hex64Key with
    | none =>
      -- skip entries the trust root cannot verify
      .ok .skipped
    | some tlogVerifier =>
      if !online then
        if !entry.hasInclusionPromise && !entry.hasInclusionProof then
          .error "entry must contain an inclusion proof and/or promise"
        else
          match (if entry.hasInclusionPromise then
                   match env.verifySET entry rekorLogs with
                   | .error _ =>
                     -- skip entries the trust root cannot verify
                     none
                   | .ok _ =>
                     some (if trustIntegratedTime then
                             [Timestamp.mk entry.integratedTime tlogVerifier.baseURL]
                           else [])
                 else some []) with
          | none => .ok .skipped
          | some ts =>
            match ((if entry.hasInclusionProof then
                      match env.getVerifier tlogVerifier.publicKey tlogVerifier.signatureHashFunc with
                      | .error e => .error e
                      | .ok verifier => env.verifyInclusion entry verifier
                    else .ok ()) : Except String Unit) with
            | .error e => .error e
            | .ok _ =>
              checkConsistency entry entitySignature verificationContent trustedMaterial ts
      else
        match env.getClient tlogVerifier.baseURL with
        | .error e => .error e
        | .ok client =>
          match env.getVerifier tlogVerifier.publicKey tlogVerifier.signatureHashFunc with
          | .error e => .error e
          | .ok verifier =>
            let logIndex := entry.logIndex
            match env.getLogEntryByIndex client logIndex with
            | .error e => .error e
            | .ok payload =>
              if payload.length == 0 then
                .error ("unable to locate log entry " ++ toString logIndex)
              else
                match verifyRecords env payload verifier with
                | .error e => .error e
                | .ok _ =>
                  let ts := if trustIntegratedTime then
                              [Timestamp.mk entry.integratedTime tlogVerifier.baseURL]
                            else []
                  checkConsistency entry entitySignature verificationContent trustedMaterial ts

/-- The accumulator fold of the per-entry loop: carries the collected
timestamps and the verified count. -/
def processAll (env : Env) (trustedMaterial : TrustedMaterial)
    (entitySignature : Bytes) (verificationContent : VerificationContent)
    (trustIntegratedTime online : Bool) :
    List LogEntry → List Timestamp → Nat →
    Except String (List Timestamp × Nat)
  | [], ts, n => .ok (ts, n)
  | e :: rest, ts, n =>
    match processEntry env trustedMaterial entitySignature verificationContent
        trustIntegratedTime online e with
    | .error msg => .error msg
    | .ok .skipped =>
      processAll env trustedMaterial entitySignature verificationContent
        trustIntegratedTime online rest ts n
    | .ok (.verified newTs) =>
      processAll env trustedMaterial entitySignature verificationContent
        trustIntegratedTime online rest (ts ++ newTs) (n + 1)

/-- `VerifyArtifactTransparencyLog`: entry admission (size bound, duplicate
scan), signature/verification content extraction, the per-entry loop, and
the final threshold check. -/
def VerifyArtifactTransparencyLog (env : Env) (entity : SignedEntity)
    (trustedMaterial : TrustedMaterial) (logThreshold : Int)
    (trustIntegratedTime online : Bool) : Except String (List Timestamp) :=
  match entity.tlogEntries with
  | .error e => .error e
  | .ok entries =>
    if entries.length > maxAllowedTlogEntries then
      .error ("too many tlog entries: " ++ toString entries.length ++ " > "
              ++ toString maxAllowedTlogEntries)
    else if hasDuplicateEntries entries then
      .error "duplicate tlog entries found"
    else
      match entity.signatureContent with
      | .error e => .error e
      | .ok sigContent =>
        match entity.verificationContent with
        | .error e => .error e
        | .ok verificationContent =>
          match processAll env trustedMaterial sigContent.signature
              verificationContent trustIntegratedTime online entries [] 0 with
          | .error e => .error e
          | .ok (verifiedTimestamps, logEntriesVerified) =>
            if (logEntriesVerified : Int) < logThreshold then
              .error ("not enough verified log entries from transparency log: "
                      ++ toString logEntriesVerified ++ " < " ++ toString logThreshold)
            else
              .ok verifiedTimestamps

/-! ### Derived per-entry views used by the proofs

These are definitional views of `processEntry`'s outcome, used to state
that the final decision depends only on the multiset of per-entry
outcomes. -/

/-- Whether processing this entry aborts the loop with a fatal error. -/
def entryFatal (env : Env) (tm : TrustedMaterial) (s : Bytes)
    (vc : VerificationContent) (tit online : Bool) (e : LogEntry) : Bool :=
  match processEntry env tm s vc tit online e with
  | .error _ => true
  | .ok _ => false

/-- Whether this entry counts toward the verified threshold. -/
def entryCounts (env : Env) (tm : TrustedMaterial) (s : Bytes)
    (vc : VerificationContent) (tit online : Bool) (e : LogEntry) : Bool :=
  match processEntry env tm s vc tit online e with
  | .ok (.verified _) => true
  | _ => false

/-- The timestamps this entry contributes to the accumulator. -/
def entryTimestamps (env : Env) (tm : TrustedMaterial) (s : Bytes)
    (vc : VerificationContent) (tit online : Bool) (e : LogEntry) : List Timestamp :=
  match processEntry env tm s vc tit online e with
  | .ok (.verified ts) => ts
  | _ => []

/-! ### Concrete fixtures for witnesses and counterexamples -/

/-- A trusted log whose key ID hex-encodes to `"00"`. -/
def log0 : TransparencyLog := { baseURL := "u", publicKey := 7, signatureHashFunc := 3 }

/-- Trusted material recognizing exactly `log0` under key `"00"`. -/
def tm0 : TrustedMaterial := { rekorLogs := [("00", log0)] }

/-- Trusted material recognizing no log at all. -/
def tmEmpty : TrustedMaterial := { rekorLogs := [] }

/-- An entry of `log0` carrying both an inclusion promise and a proof. -/
def entry0 : LogEntry :=
  { logKeyID := [0], logIndex := 0, integratedTime := 5, signature := [1],
    publicKey := [2], hasInclusionPromise := true, hasInclusionProof := true }

/-- Same as `entry0` but carrying only an inclusion proof. -/
def entry1 : LogEntry := { entry0 with hasInclusionPromise := false }

/-- Same as `entry0` but carrying neither promise nor proof. -/
def entry2 : LogEntry :=
  { entry0 with hasInclusionPromise := false, hasInclusionProof := false }

/-- Same as `entry0` but at log index 1. -/
def entry3 : LogEntry := { entry0 with logIndex := 1 }

/-- Signature content matching `entry0.signature`. -/
def sc0 : SignatureContent := { signature := [1] }

/-- Signature content different from every fixture entry's signature. -/
def scBad : SignatureContent := { signature := [9] }

/-- Verification content accepting every key and time. -/
def vc0 : VerificationContent :=
  { compareKey := fun _ _ => true, validAtTime := fun _ _ => true }

/-- Oracles where everything succeeds except SET verification. -/
def envSETfail : Env :=
  { validateEntry := fun _ => .ok (), verifySET := fun _ _ => .error "bad set",
    getVerifier := fun _ _ => .ok 0, verifyInclusion := fun _ _ => .ok (),
    getClient := fun _ => .ok 0, getLogEntryByIndex := fun _ _ => .ok [0],
    verifyLogEntry := fun _ _ => .ok () }

/-- Oracles where everything succeeds. -/
def envOK : Env := { envSETfail with verifySET := fun _ _ => .ok () }

/-- Oracles where the remote index query returns an empty payload. -/
def envEmpty : Env := { envOK with getLogEntryByIndex := fun _ _ => .ok [] }

/-- Oracles where remote record verification fails. -/
def envRemoteFail : Env := { envOK with verifyLogEntry := fun _ _ => .error "bad record" }

/-- Entity holding `[entry0]`. -/
def entity0 : SignedEntity :=
  { tlogEntries := .ok [entry0], signatureContent := .ok sc0,
    verificationContent := .ok vc0 }

/-- Entity holding the proof-only `[entry1]`. -/
def entity1 : SignedEntity := { entity0 with tlogEntries := .ok [entry1] }

/-- Entity holding the evidence-free `[entry2]`. -/
def entity2 : SignedEntity := { entity0 with tlogEntries := .ok [entry2] }

/-- Entity holding 33 copies of `entry0`. -/
def entity33 : SignedEntity :=
  { entity0 with tlogEntries := .ok (List.replicate 33 entry0) }

/-- Entity holding `[entry0, entry0]`: a duplicate within the size bound. -/
def entityDup : SignedEntity := { entity0 with tlogEntries := .ok [entry0, entry0] }

/-- Entity holding no entry at all. -/
def entityNil : SignedEntity := { entity0 with tlogEntries := .ok [] }

/-- Entity holding `[entry0, entry3]`. -/
def entityPair : SignedEntity := { entity0 with tlogEntries := .ok [entry0, entry3] }

/-- Entity holding the same two entries in the opposite order. -/
def entityPairSwapped : SignedEntity := { entity0 with tlogEntries := .ok [entry3, entry0] }

/-! ### Helper lemmas -/

/-- A successful consistency check means all three checks passed and the
outcome is `verified` with exactly the timestamps that were handed in. -/
theorem checkConsistency_ok {entry : LogEntry} {s : Bytes} {vc : VerificationContent}
    {tm : TrustedMaterial} {ts : List Timestamp} {out : EntryOutcome}
    (h : checkConsistency entry s vc tm ts = .ok out) :
    (entry.signature == s) = true ∧ vc.compareKey entry.publicKey tm = true ∧
    vc.validAtTime entry.integratedTime tm = true ∧ out = .verified ts := by
  unfold checkConsistency at h
  split at h
  · cases h
  · split at h
    · cases h
    · split at h
      · cases h
      · rename_i h1 h2 h3
        simp only [Bool.not_eq_true', Bool.not_eq_false] at h1 h2 h3
        injection h
        simp_all

/-- The consistency check never produces the `skipped` outcome. -/
theorem checkConsistency_ne_skipped {entry : LogEntry} {s : Bytes}
    {vc : VerificationContent} {tm : TrustedMaterial} {ts : List Timestamp} :
    checkConsistency entry s vc tm ts ≠ .ok .skipped := by
  intro h
  obtain ⟨-, -, -, h4⟩ := checkConsistency_ok h
  cases h4

/-- The accumulator fold splits over list append. -/
theorem processAll_append (env : Env) (tm : TrustedMaterial) (s : Bytes)
    (vc : VerificationContent) (tit online : Bool) (l₁ l₂ : List LogEntry)
    (ts : List Timestamp) (n : Nat) :
    processAll env tm s vc tit online (l₁ ++ l₂) ts n =
      match processAll env tm s vc tit online l₁ ts n with
      | .error e => .error e
      | .ok (ts', n') => processAll env tm s vc tit online l₂ ts' n' := by
  induction l₁ generalizing ts n with
  | nil => simp [processAll]
  | cons e rest ih =>
    simp only [List.cons_append, processAll]
    cases hpe : processEntry env tm s vc tit online e with
    | error msg => rfl
    | ok out => cases out <;> simp [ih]

/-- A structurally valid entry whose hex-encoded key ID is not in the
trusted-log mapping is skipped. -/
theorem processEntry_unrecognized {env : Env} {tm : TrustedMaterial} {s : Bytes}
    {vc : VerificationContent} {tit online : Bool} {e : LogEntry}
    (hval : env.validateEntry e = .ok ())
    (hlook : tm.rekorLogs.lookup (hexEncode e.logKeyID) = none) :
    processEntry env tm s vc tit online e = .ok .skipped := by
  simp [processEntry, hval, hlook]

/-- If some remote record fails verification, the record loop fails. -/
theorem verifyRecords_error {env : Env} {verifier : Nat} {records : List Nat}
    {r : Nat} {msg : String} (hr : r ∈ records)
    (hfail : env.verifyLogEntry r verifier = .error msg) :
    ∃ msg', verifyRecords env records verifier = .error msg' := by
  induction records with
  | nil => cases hr
  | cons v rest ih =>
    unfold verifyRecords
    cases hv : env.verifyLogEntry v verifier with
    | error e => exact ⟨e, rfl⟩
    | ok u =>
      rcases List.mem_cons.mp hr with h | h
      · subst h; rw [hv] at hfail; cases hfail
      · simpa using ih h

/-- Unfolding of the top-level operation once the admission checks and the
entity accessors are fixed. -/
theorem verify_unfold {env : Env} {entity : SignedEntity} {tm : TrustedMaterial}
    {th : Int} {tit online : Bool} {entries : List LogEntry}
    {sc : SignatureContent} {vc : VerificationContent}
    (h1 : entity.tlogEntries = .ok entries)
    (h2 : entries.length ≤ maxAllowedTlogEntries)
    (h3 : hasDuplicateEntries entries = false)
    (h4 : entity.signatureContent = .ok sc)
    (h5 : entity.verificationContent = .ok vc) :
    VerifyArtifactTransparencyLog env entity tm th tit online =
      match processAll env tm sc.signature vc tit online entries [] 0 with
      | .error e => .error e
      | .ok (ts, n) =>
        if (n : Int) < th then
          .error ("not enough verified log entries from transparency log: "
                  ++ toString n ++ " < " ++ toString th)
        else
          .ok ts := by
  have hlen : ¬ entries.length > maxAllowedTlogEntries := by omega
  simp only [VerifyArtifactTransparencyLog, h1, h4, h5, hlen, h3, if_false,
    Bool.false_eq_true, ite_false]

/-- A `verified` outcome of the per-entry loop body implies all three
consistency checks passed. -/
theorem processEntry_verified_checks {env : Env} {tm : TrustedMaterial} {s : Bytes}
    {vc : VerificationContent} {tit online : Bool} {e : LogEntry} {ts : List Timestamp}
    (h : processEntry env tm s vc tit online e = .ok (.verified ts)) :
    (e.signature == s) = true ∧ vc.compareKey e.publicKey tm = true ∧
    vc.validAtTime e.integratedTime tm = true := by
  unfold processEntry at h
  repeat
    first
    | exact ⟨(checkConsistency_ok h).1, (checkConsistency_ok h).2.1,
        (checkConsistency_ok h).2.2.1⟩
    | cases h
    | simp at h
    | split at h

/-- In online mode a recognized entry is never skipped: the loop body
either fails fatally or verifies it. -/
theorem processEntry_online_no_skip {env : Env} {tm : TrustedMaterial} {s : Bytes}
    {vc : VerificationContent} {tit : Bool} {e : LogEntry} {tlv : TransparencyLog}
    (hval : env.validateEntry e = .ok ())
    (hlook : tm.rekorLogs.lookup (hexEncode e.logKeyID) = some tlv) :
    processEntry env tm s vc tit true e ≠ .ok .skipped := by
  intro h
  simp only [processEntry, hval, hlook] at h
  repeat
    first
    | exact checkConsistency_ne_skipped h
    | cases h
    | simp at h
    | split at h

/-- A lawful boolean equality test gives the same answer in both
argument orders. -/
theorem beq_symm_eq {α : Type} [BEq α] [LawfulBEq α] (a b : α) : (a == b) = (b == a) := by
  cases h : a == b
  · cases h2 : b == a
    · rfl
    · rw [eq_of_beq h2] at h
      simp at h
  · rw [eq_of_beq h]
    simp

/-- Identity comparison of entries is symmetric. -/
theorem sameIdentity_comm (a b : LogEntry) : sameIdentity a b = sameIdentity b a := by
  simp only [sameIdentity]
  rw [beq_symm_eq a.logKeyID b.logKeyID, beq_symm_eq a.logIndex b.logIndex]

/-- The duplicate scan returns `false` exactly when no two entries at
distinct positions share their identity pair. -/
theorem hasDuplicateEntries_eq_false {l : List LogEntry} :
    hasDuplicateEntries l = false ↔ l.Pairwise (fun a b => sameIdentity a b = false) := by
  induction l with
  | nil => simp [hasDuplicateEntries]
  | cons e rest ih =>
    simp [hasDuplicateEntries, List.pairwise_cons, ih, List.any_eq_false]

/-- The duplicate scan is invariant under permutation of the entry list. -/
theorem hasDuplicateEntries_perm {l₁ l₂ : List LogEntry} (hp : l₁.Perm l₂) :
    hasDuplicateEntries l₁ = hasDuplicateEntries l₂ := by
  have hsym : ∀ {x y : LogEntry}, sameIdentity x y = false → sameIdentity y x = false := by
    intro x y hxy
    rw [sameIdentity_comm]
    exact hxy
  have hiff := @List.Perm.pairwise_iff LogEntry
      (fun a b => sameIdentity a b = false) (fun {x y} => hsym) l₁ l₂ hp
  have key : hasDuplicateEntries l₁ = false ↔ hasDuplicateEntries l₂ = false := by
    rw [hasDuplicateEntries_eq_false, hasDuplicateEntries_eq_false]
    exact hiff
  cases h1 : hasDuplicateEntries l₁ with
  | false => exact (key.mp h1).symm
  | true =>
    cases h2 : hasDuplicateEntries l₂ with
    | false => exact absurd (key.mpr h2) (by simp [h1])
    | true => rfl

/-- A list decomposing around two identity-sharing entries fails the
duplicate scan. -/
theorem hasDuplicateEntries_of_split (pre mid post : List LogEntry) (a b : LogEntry)
    (hid : sameIdentity a b = true) :
    hasDuplicateEntries (pre ++ a :: (mid ++ b :: post)) = true := by
  induction pre with
  | nil =>
    have hb : b ∈ mid ++ b :: post := by simp
    have hany : (mid ++ b :: post).any (sameIdentity a) = true :=
      List.any_eq_true.mpr ⟨b, hb, hid⟩
    simp [hasDuplicateEntries, hany]
  | cons p rest ih =>
    rw [List.cons_append,
      show hasDuplicateEntries (p :: (rest ++ a :: (mid ++ b :: post))) =
        ((rest ++ a :: (mid ++ b :: post)).any (sameIdentity p)
          || hasDuplicateEntries (rest ++ a :: (mid ++ b :: post))) from rfl,
      ih, Bool.or_true]

/-- When no entry in the list is fatal, the accumulator fold succeeds and
returns exactly the concatenated per-entry timestamps and the count of
verified entries. -/
theorem processAll_of_no_fatal {env : Env} {tm : TrustedMaterial} {s : Bytes}
    {vc : VerificationContent} {tit online : Bool} {l : List LogEntry}
    (h : ∀ e ∈ l, entryFatal env tm s vc tit online e = false)
    (ts : List Timestamp) (n : Nat) :
    processAll env tm s vc tit online l ts n =
      .ok (ts ++ l.flatMap (entryTimestamps env tm s vc tit online),
           n + l.countP (entryCounts env tm s vc tit online)) := by
  induction l generalizing ts n with
  | nil => simp [processAll]
  | cons e rest ih =>
    have he := h e (List.mem_cons_self e rest)
    have hrest : ∀ x ∈ rest, entryFatal env tm s vc tit online x = false :=
      fun x hx => h x (List.mem_cons_of_mem _ hx)
    simp only [processAll]
    cases hpe : processEntry env tm s vc tit online e with
    | error msg => simp [entryFatal, hpe] at he
    | ok out =>
      cases out with
      | skipped =>
        have h1 : entryTimestamps env tm s vc tit online e = [] := by
          simp [entryTimestamps, hpe]
        have h2 : entryCounts env tm s vc tit online e = false := by
          simp [entryCounts, hpe]
        show processAll env tm s vc tit online rest ts n =
          Except.ok (ts ++ (e :: rest).flatMap (entryTimestamps env tm s vc tit online),
            n + List.countP (entryCounts env tm s vc tit online) (e :: rest))
        rw [ih hrest]
        simp [h1, h2, List.countP_cons]
      | verified newTs =>
        have h1 : entryTimestamps env tm s vc tit online e = newTs := by
          simp [entryTimestamps, hpe]
        have h2 : entryCounts env tm s vc tit online e = true := by
          simp [entryCounts, hpe]
        show processAll env tm s vc tit online rest (ts ++ newTs) (n + 1) =
          Except.ok (ts ++ (e :: rest).flatMap (entryTimestamps env tm s vc tit online),
            n + List.countP (entryCounts env tm s vc tit online) (e :: rest))
        rw [ih hrest]
        simp only [Except.ok.injEq, Prod.mk.injEq, List.flatMap_cons, h1,
          List.countP_cons, h2, if_true, List.append_assoc]
        refine ⟨trivial, by omega⟩

/-- When some entry in the list is fatal, the accumulator fold fails. -/
theorem processAll_of_fatal {env : Env} {tm : TrustedMaterial} {s : Bytes}
    {vc : VerificationContent} {tit online : Bool} {l : List LogEntry}
    (h : ∃ e ∈ l, entryFatal env tm s vc tit online e = true)
    (ts : List Timestamp) (n : Nat) :
    ∃ msg, processAll env tm s vc tit online l ts n = .error msg := by
  induction l generalizing ts n with
  | nil =>
    rcases h with ⟨e, he, -⟩
    cases he
  | cons e rest ih =>
    rcases h with ⟨x, hx, hfat⟩
    simp only [processAll]
    rcases List.mem_cons.mp hx with rfl | hx'
    · cases hpe : processEntry env tm s vc tit online x with
      | error msg => exact ⟨msg, rfl⟩
      | ok out => simp [entryFatal, hpe] at hfat
    · cases hpe : processEntry env tm s vc tit online e with
      | error msg => exact ⟨msg, rfl⟩
      | ok out =>
        cases out with
        | skipped => exact ih ⟨x, hx', hfat⟩ ts n
        | verified newTs => exact ih ⟨x, hx', hfat⟩ (ts ++ newTs) (n + 1)

/-- A fatal per-entry error, reached after a prefix of the entry list is
processed without error, aborts the whole operation with that error. -/
theorem verify_error_of_entry {env : Env} {entity : SignedEntity} {tm : TrustedMaterial}
    {th : Int} {tit online : Bool} {entries pre post : List LogEntry}
    {sc : SignatureContent} {vc : VerificationContent} {ts0 : List Timestamp}
    {n0 : Nat} {e : LogEntry} {msg : String}
    (h1 : entity.tlogEntries = .ok entries)
    (hsplit : entries = pre ++ e :: post)
    (h2 : entries.length ≤ maxAllowedTlogEntries)
    (h3 : hasDuplicateEntries entries = false)
    (h4 : entity.signatureContent = .ok sc)
    (h5 : entity.verificationContent = .ok vc)
    (hpre : processAll env tm sc.signature vc tit online pre [] 0 = .ok (ts0, n0))
    (hpe : processEntry env tm sc.signature vc tit online e = .error msg) :
    VerifyArtifactTransparencyLog env entity tm th tit online = .error msg := by
  rw [verify_unfold h1 h2 h3 h4 h5]
  subst hsplit
  rw [processAll_append, hpre]
  show (match processAll env tm sc.signature vc tit online (e :: post) ts0 n0 with
        | Except.error e => Except.error e
        | Except.ok (ts, n) =>
          if (n : Int) < th then
            Except.error ("not enough verified log entries from transparency log: "
                          ++ toString n ++ " < " ++ toString th)
          else Except.ok ts) = Except.error msg
  simp [processAll, hpe]

/-! ### Claims -/

/-- Claim C1, counterexample: an offline entry from a recognized log
carrying both an inclusion promise and an inclusion proof, whose SET
verification fails while the inclusion-proof oracle accepts everything,
does NOT count toward the threshold: with threshold 1 the operation fails
with a verified count of 0. -/
theorem C1_counterexample :
    entry0.hasInclusionPromise = true ∧ entry0.hasInclusionProof = true ∧
    envSETfail.verifySET entry0 tm0.rekorLogs = .error "bad set" ∧
    (∀ e v, envSETfail.verifyInclusion e v = .ok ()) ∧
    VerifyArtifactTransparencyLog envSETfail entity0 tm0 1 false false
      = .error "not enough verified log entries from transparency log: 0 < 1" :=
  ⟨rfl, rfl, rfl, fun _ _ => rfl, rfl⟩

/-- Claim C1 (amended): in offline mode, an entry from a recognized log
whose inclusion promise fails SET verification is skipped — it does not
count toward the threshold, no timestamp is emitted, and the inclusion
proof is not consulted (the result holds for every value of the
proof-verification oracles); an entry carrying only an inclusion proof
proceeds to the consistency checks with an empty timestamp list, so no
timestamp is ever emitted from a proof alone. -/
theorem C1_amended (env : Env) (tm : TrustedMaterial) (s : Bytes)
    (vc : VerificationContent) (tit : Bool) (e : LogEntry)
    (tlv : TransparencyLog) (msg : String)
    (hval : env.validateEntry e = .ok ())
    (hlook : tm.rekorLogs.lookup (hexEncode e.logKeyID) = some tlv)
    (hpromise : e.hasInclusionPromise = true)
    (hset : env.verifySET e tm.rekorLogs = .error msg) :
    processEntry env tm s vc tit false e = .ok .skipped
    ∧ (∀ (env2 : Env) (e2 : LogEntry) (tlv2 : TransparencyLog) (vrf : Nat),
        env2.validateEntry e2 = .ok () →
        tm.rekorLogs.lookup (hexEncode e2.logKeyID) = some tlv2 →
        e2.hasInclusionPromise = false →
        e2.hasInclusionProof = true →
        env2.getVerifier tlv2.publicKey tlv2.signatureHashFunc = .ok vrf →
        env2.verifyInclusion e2 vrf = .ok () →
        processEntry env2 tm s vc tit false e2 = checkConsistency e2 s vc tm []) := by
  constructor
  · simp [processEntry, hval, hlook, hpromise, hset]
  · intro env2 e2 tlv2 vrf hval2 hlook2 hnp hpf hvrf hincl
    simp [processEntry, hval2, hlook2, hnp, hpf, hvrf, hincl]

/-- Witness for C1: concrete skip on failed SET, and concrete proof-only
verification with an empty timestamp list. -/
theorem C1_witness :
    processEntry envSETfail tm0 sc0.signature vc0 true false entry0 = .ok .skipped ∧
    processEntry envOK tm0 sc0.signature vc0 true false entry1 = .ok (.verified []) := by
  have h := C1_amended envSETfail tm0 sc0.signature vc0 true entry0 log0 "bad set"
    rfl rfl rfl rfl
  refine ⟨h.1, ?_⟩
  rw [h.2 envOK entry1 log0 0 rfl rfl rfl rfl rfl rfl]
  rfl

/-- Claim C2: an entry counted as verified passed all three consistency
checks (signature byte-equality, key comparison, time-window membership);
each failing check yields exactly the corresponding fatal error; and a
fatal per-entry error aborts the whole operation with that error. -/
theorem C2_consistency (env : Env) (tm : TrustedMaterial) (s : Bytes)
    (vc : VerificationContent) (tit online : Bool) (entry : LogEntry) :
    (∀ ts, processEntry env tm s vc tit online entry = .ok (.verified ts) →
      (entry.signature == s) = true ∧ vc.compareKey entry.publicKey tm = true ∧
      vc.validAtTime entry.integratedTime tm = true)
    ∧ (∀ ts, (entry.signature == s) = false →
        checkConsistency entry s vc tm ts
          = .error "transparency log signature does not match")
    ∧ (∀ ts, (entry.signature == s) = true →
        vc.compareKey entry.publicKey tm = false →
        checkConsistency entry s vc tm ts
          = .error "transparency log certificate does not match")
    ∧ (∀ ts, (entry.signature == s) = true →
        vc.compareKey entry.publicKey tm = true →
        vc.validAtTime entry.integratedTime tm = false →
        checkConsistency entry s vc tm ts
          = .error "integrated time outside certificate validity")
    ∧ (∀ (entity : SignedEntity) (entries pre post : List LogEntry)
        (sc : SignatureContent) (ts0 : List Timestamp) (n0 : Nat)
        (msg : String) (th : Int),
        entity.tlogEntries = .ok entries →
        entries = pre ++ entry :: post →
        entries.length ≤ maxAllowedTlogEntries →
        hasDuplicateEntries entries = false →
        entity.signatureContent = .ok sc →
        entity.verificationContent = .ok vc →
        processAll env tm sc.signature vc tit online pre [] 0 = .ok (ts0, n0) →
        processEntry env tm sc.signature vc tit online entry = .error msg →
        VerifyArtifactTransparencyLog env entity tm th tit online = .error msg) := by
  refine ⟨?_, ?_, ?_, ?_, ?_⟩
  · intro ts h
    exact processEntry_verified_checks h
  · intro ts hsig
    simp [checkConsistency, hsig]
  · intro ts hsig hkey
    simp [checkConsistency, hsig, hkey]
  · intro ts hsig hkey htime
    simp [checkConsistency, hsig, hkey, htime]
  · intro entity entries pre post sc ts0 n0 msg th h1 hsplit h2 h3 h4 h5 hpre hpe
    exact verify_error_of_entry h1 hsplit h2 h3 h4 h5 hpre hpe

/-- Witness for C2: a concretely verified entry with its checks all true,
and a concrete signature mismatch yielding the exact error. -/
theorem C2_witness :
    ((entry0.signature == sc0.signature) = true ∧
      vc0.compareKey entry0.publicKey tm0 = true ∧
      vc0.validAtTime entry0.integratedTime tm0 = true) ∧
    checkConsistency entry0 scBad.signature vc0 tm0 []
      = .error "transparency log signature does not match" :=
  ⟨(C2_consistency envOK tm0 sc0.signature vc0 false false entry0).1 [] rfl,
   (C2_consistency envOK tm0 scBad.signature vc0 false false entry0).2.1 [] rfl⟩

/-- Claim C4: a structurally valid entry whose hex-encoded log key ID is
absent from the trusted-log mapping is skipped: it never increments the
verified count, never contributes a timestamp, and never causes an error
by itself — removing it from any entry list leaves the fold unchanged. -/
theorem C4_unrecognized (env : Env) (tm : TrustedMaterial) (s : Bytes)
    (vc : VerificationContent) (tit online : Bool) (e : LogEntry)
    (hval : env.validateEntry e = .ok ())
    (hlook : tm.rekorLogs.lookup (hexEncode e.logKeyID) = none) :
    processEntry env tm s vc tit online e = .ok .skipped
    ∧ ∀ l1 l2 ts n,
        processAll env tm s vc tit online (l1 ++ e :: l2) ts n
          = processAll env tm s vc tit online (l1 ++ l2) ts n := by
  have hskip : processEntry env tm s vc tit online e = .ok .skipped :=
    processEntry_unrecognized hval hlook
  refine ⟨hskip, ?_⟩
  intro l1 l2 ts n
  rw [processAll_append, processAll_append]
  cases h : processAll env tm s vc tit online l1 ts n with
  | error msg => rfl
  | ok p =>
    cases p with
    | mk ts2 n2 =>
      show processAll env tm s vc tit online (e :: l2) ts2 n2
        = processAll env tm s vc tit online l2 ts2 n2
      simp [processAll, hskip]

/-- Witness for C4: the unrecognized-log entry is concretely skipped and
drops out of the fold. -/
theorem C4_witness :
    processEntry envOK tmEmpty sc0.signature vc0 true false entry0 = .ok .skipped ∧
    processAll envOK tmEmpty sc0.signature vc0 true false ([] ++ entry0 :: []) [] 0
      = processAll envOK tmEmpty sc0.signature vc0 true false ([] ++ []) [] 0 := by
  have h := C4_unrecognized envOK tmEmpty sc0.signature vc0 true false entry0 rfl rfl
  exact ⟨h.1, h.2 [] [] [] 0⟩

/-- Claim C3: once every entry is processed without a fatal error, the
operation fails with the insufficient-entries error exactly when the
verified count is strictly below the threshold, and otherwise returns the
accumulated timestamp list. -/
theorem C3_threshold (env : Env) (entity : SignedEntity) (tm : TrustedMaterial)
    (th : Int) (tit online : Bool) (entries : List LogEntry)
    (sc : SignatureContent) (vc : VerificationContent)
    (ts : List Timestamp) (n : Nat)
    (h1 : entity.tlogEntries = .ok entries)
    (h2 : entries.length ≤ maxAllowedTlogEntries)
    (h3 : hasDuplicateEntries entries = false)
    (h4 : entity.signatureContent = .ok sc)
    (h5 : entity.verificationContent = .ok vc)
    (h6 : processAll env tm sc.signature vc tit online entries [] 0 = .ok (ts, n)) :
    ((n : Int) < th →
      VerifyArtifactTransparencyLog env entity tm th tit online =
        .error ("not enough verified log entries from transparency log: "
                ++ toString n ++ " < " ++ toString th))
    ∧ (th ≤ (n : Int) →
      VerifyArtifactTransparencyLog env entity tm th tit online = .ok ts) := by
  rw [verify_unfold h1 h2 h3 h4 h5, h6]
  constructor
  · intro hlt
    simp [hlt]
  · intro hge
    simp [Int.not_lt.mpr hge]

/-- Witness for C3: zero verified entries fail threshold 1 and meet
threshold 0. -/
theorem C3_witness :
    VerifyArtifactTransparencyLog envOK entityNil tm0 1 true false
      = .error ("not enough verified log entries from transparency log: "
                ++ toString (0 : Nat) ++ " < " ++ toString (1 : Int)) ∧
    VerifyArtifactTransparencyLog envOK entityNil tm0 0 true false = .ok [] :=
  ⟨(C3_threshold envOK entityNil tm0 1 true false [] sc0 vc0 [] 0
      rfl (by decide) rfl rfl rfl rfl).1 (by decide),
   (C3_threshold envOK entityNil tm0 0 true false [] sc0 vc0 [] 0
      rfl (by decide) rfl rfl rfl rfl).2 (by decide)⟩

/-- Claim C5: with more than 32 entries the operation fails with the
"too many tlog entries" error for every choice of the per-entry oracles,
trusted material, threshold and flags — no per-entry work is consulted. -/
theorem C5_too_many (env : Env) (entity : SignedEntity) (tm : TrustedMaterial)
    (th : Int) (tit online : Bool) (entries : List LogEntry)
    (h1 : entity.tlogEntries = .ok entries)
    (h2 : entries.length > maxAllowedTlogEntries) :
    VerifyArtifactTransparencyLog env entity tm th tit online =
      .error ("too many tlog entries: " ++ toString entries.length ++ " > "
              ++ toString maxAllowedTlogEntries) := by
  unfold VerifyArtifactTransparencyLog
  rw [h1]
  simp [h2]

/-- Witness for C5: 33 entries are rejected with the concrete message. -/
theorem C5_witness :
    VerifyArtifactTransparencyLog envOK entity33 tm0 1 false false
      = .error "too many tlog entries: 33 > 32" := by
  rw [C5_too_many envOK entity33 tm0 1 false false (List.replicate 33 entry0)
    rfl (by decide)]
  rfl

/-- Claim C6, counterexample: a 33-entry list two of whose entries share
their identity pair is rejected by the size bound first — the operation
returns the "too many tlog entries" error, not the duplicate-entries
error the claim promises. -/
theorem C6_counterexample :
    (List.replicate 33 entry0
      = [] ++ entry0 :: ([] ++ entry0 :: List.replicate 31 entry0)
      ∧ sameIdentity entry0 entry0 = true)
    ∧ VerifyArtifactTransparencyLog envOK entity33 tm0 1 false false
        = .error "too many tlog entries: 33 > 32"
    ∧ VerifyArtifactTransparencyLog envOK entity33 tm0 1 false false
        ≠ .error "duplicate tlog entries found" := by
  refine ⟨⟨rfl, rfl⟩, rfl, ?_⟩
  intro hc
  have hv : VerifyArtifactTransparencyLog envOK entity33 tm0 1 false false
      = .error "too many tlog entries: 33 > 32" := rfl
  rw [hv] at hc
  injection hc with hs
  exact absurd hs (by decide)

/-- Claim C6 (amended): for every entry list within the 32-entry size
bound, two entries sharing their `(logKeyID, logIndex)` identity pair make
the operation fail with the fatal duplicate-entries error, for every
choice of the per-entry oracles — before any per-entry work. -/
theorem C6_amended (env : Env) (entity : SignedEntity) (tm : TrustedMaterial)
    (th : Int) (tit online : Bool) (entries pre mid post : List LogEntry)
    (a b : LogEntry)
    (h1 : entity.tlogEntries = .ok entries)
    (hsplit : entries = pre ++ a :: (mid ++ b :: post))
    (hid : sameIdentity a b = true)
    (h2 : entries.length ≤ maxAllowedTlogEntries) :
    VerifyArtifactTransparencyLog env entity tm th tit online
      = .error "duplicate tlog entries found" := by
  have hdup : hasDuplicateEntries entries = true := by
    rw [hsplit]
    exact hasDuplicateEntries_of_split pre mid post a b hid
  have hlen : ¬ entries.length > maxAllowedTlogEntries := Nat.not_lt.mpr h2
  unfold VerifyArtifactTransparencyLog
  rw [h1]
  simp [hlen, hdup]

/-- Witness for C6: a concrete two-element duplicate list is rejected. -/
theorem C6_witness :
    VerifyArtifactTransparencyLog envOK entityDup tm0 1 false false
      = .error "duplicate tlog entries found" :=
  C6_amended envOK entityDup tm0 1 false false [entry0, entry0] [] [] []
    entry0 entry0 rfl rfl rfl (by decide)

/-- Claim C7: in offline mode an entry from a recognized log carrying
neither an inclusion promise nor an inclusion proof aborts the whole
operation with the missing-evidence fatal error, wherever it sits in the
entry list. -/
theorem C7_missing_evidence (env : Env) (entity : SignedEntity)
    (tm : TrustedMaterial) (th : Int) (tit : Bool)
    (entries pre post : List LogEntry) (sc : SignatureContent)
    (vc : VerificationContent) (ts0 : List Timestamp) (n0 : Nat)
    (e : LogEntry) (tlv : TransparencyLog)
    (h1 : entity.tlogEntries = .ok entries)
    (hsplit : entries = pre ++ e :: post)
    (h2 : entries.length ≤ maxAllowedTlogEntries)
    (h3 : hasDuplicateEntries entries = false)
    (h4 : entity.signatureContent = .ok sc)
    (h5 : entity.verificationContent = .ok vc)
    (hpre : processAll env tm sc.signature vc tit false pre [] 0 = .ok (ts0, n0))
    (hval : env.validateEntry e = .ok ())
    (hlook : tm.rekorLogs.lookup (hexEncode e.logKeyID) = some tlv)
    (hnp : e.hasInclusionPromise = false)
    (hnpf : e.hasInclusionProof = false) :
    VerifyArtifactTransparencyLog env entity tm th tit false
      = .error "entry must contain an inclusion proof and/or promise" := by
  have hpe : processEntry env tm sc.signature vc tit false e
      = .error "entry must contain an inclusion proof and/or promise" := by
    simp [processEntry, hval, hlook, hnp, hnpf]
  exact verify_error_of_entry h1 hsplit h2 h3 h4 h5 hpre hpe

/-- Witness for C7: a concrete evidence-free offline entry aborts the
operation. -/
theorem C7_witness :
    VerifyArtifactTransparencyLog envOK entity2 tm0 1 false false
      = .error "entry must contain an inclusion proof and/or promise" :=
  C7_missing_evidence envOK entity2 tm0 1 false [entry2] [] [] sc0 vc0 [] 0
    entry2 log0 rfl rfl (by decide) rfl rfl rfl rfl rfl rfl rfl rfl

/-- Claim C8: in online mode, an empty remote result set for a recognized
entry's log index aborts the whole operation with the "unable to locate"
error; a failing remote record verification makes the loop body fatal;
and online processing of a recognized entry never takes the
skip-and-continue path. -/
theorem C8_online (env : Env) (tm : TrustedMaterial) (s : Bytes)
    (vc : VerificationContent) (tit : Bool) :
    (∀ (entity : SignedEntity) (entries pre post : List LogEntry)
        (sc : SignatureContent) (th : Int) (ts0 : List Timestamp) (n0 : Nat)
        (e : LogEntry) (tlv : TransparencyLog) (client vrf : Nat),
        entity.tlogEntries = .ok entries →
        entries = pre ++ e :: post →
        entries.length ≤ maxAllowedTlogEntries →
        hasDuplicateEntries entries = false →
        entity.signatureContent = .ok sc →
        entity.verificationContent = .ok vc →
        processAll env tm sc.signature vc tit true pre [] 0 = .ok (ts0, n0) →
        env.validateEntry e = .ok () →
        tm.rekorLogs.lookup (hexEncode e.logKeyID) = some tlv →
        env.getClient tlv.baseURL = .ok client →
        env.getVerifier tlv.publicKey tlv.signatureHashFunc = .ok vrf →
        env.getLogEntryByIndex client e.logIndex = .ok [] →
        VerifyArtifactTransparencyLog env entity tm th tit true
          = .error ("unable to locate log entry " ++ toString e.logIndex))
    ∧ (∀ (e : LogEntry) (tlv : TransparencyLog) (client vrf : Nat)
        (payload : List Nat) (r : Nat) (msg : String),
        env.validateEntry e = .ok () →
        tm.rekorLogs.lookup (hexEncode e.logKeyID) = some tlv →
        env.getClient tlv.baseURL = .ok client →
        env.getVerifier tlv.publicKey tlv.signatureHashFunc = .ok vrf →
        env.getLogEntryByIndex client e.logIndex = .ok payload →
        r ∈ payload →
        env.verifyLogEntry r vrf = .error msg →
        ∃ msg2, processEntry env tm s vc tit true e = .error msg2)
    ∧ (∀ (e : LogEntry) (tlv : TransparencyLog),
        env.validateEntry e = .ok () →
        tm.rekorLogs.lookup (hexEncode e.logKeyID) = some tlv →
        processEntry env tm s vc tit true e ≠ .ok .skipped) := by
  refine ⟨?_, ?_, ?_⟩
  · intro entity entries pre post sc th ts0 n0 e tlv client vrf
      h1 hsplit h2 h3 h4 h5 hpre hval hlook hclient hvrf hpayload
    have hpe : processEntry env tm sc.signature vc tit true e
        = .error ("unable to locate log entry " ++ toString e.logIndex) := by
      simp [processEntry, hval, hlook, hclient, hvrf, hpayload]
    exact verify_error_of_entry h1 hsplit h2 h3 h4 h5 hpre hpe
  · intro e tlv client vrf payload r msg hval hlook hclient hvrf hpayload hr hfail
    have hne : payload ≠ [] := List.ne_nil_of_mem hr
    have hlen0 : (payload.length == 0) = false := by
      simp [List.length_eq_zero, hne]
    obtain ⟨msg2, hrec⟩ := verifyRecords_error hr hfail
    refine ⟨msg2, ?_⟩
    simp [processEntry, hval, hlook, hclient, hvrf, hpayload, hlen0, hrec]
  · intro e tlv hval hlook
    exact processEntry_online_no_skip hval hlook

/-- Witness for C8: concrete empty-payload failure, concrete fatal remote
record, and a concrete non-skip. -/
theorem C8_witness :
    VerifyArtifactTransparencyLog envEmpty entity0 tm0 1 false true
      = .error ("unable to locate log entry " ++ toString (0 : Int)) ∧
    (∃ msg2, processEntry envRemoteFail tm0 sc0.signature vc0 false true entry0
      = .error msg2) ∧
    processEntry envOK tm0 sc0.signature vc0 false true entry0 ≠ .ok .skipped := by
  have h := C8_online envEmpty tm0 sc0.signature vc0 false
  have h2 := C8_online envRemoteFail tm0 sc0.signature vc0 false
  have h3 := C8_online envOK tm0 sc0.signature vc0 false
  exact ⟨h.1 entity0 [entry0] [] [] sc0 1 [] 0 entry0 log0 0 0
          rfl rfl (by decide) rfl rfl rfl rfl rfl rfl rfl rfl rfl,
    h2.2.1 entry0 log0 0 0 [0] 0 "bad record" rfl rfl rfl rfl rfl (by decide) rfl,
    h3.2.2 entry0 log0 rfl rfl⟩

/-- Claim C9: for inputs passing the size and duplicate checks, permuting
the entry list leaves the success/failure decision unchanged, and on
success the returned timestamp lists are permutations of each other. -/
theorem C9_perm (env : Env) (tm : TrustedMaterial) (th : Int) (tit online : Bool)
    (e1 e2 : SignedEntity) (l1 l2 : List LogEntry)
    (sc : SignatureContent) (vc : VerificationContent)
    (h1 : e1.tlogEntries = .ok l1) (h2 : e2.tlogEntries = .ok l2)
    (hp : l1.Perm l2)
    (hs1 : e1.signatureContent = .ok sc) (hs2 : e2.signatureContent = .ok sc)
    (hv1 : e1.verificationContent = .ok vc) (hv2 : e2.verificationContent = .ok vc)
    (hlen : l1.length ≤ maxAllowedTlogEntries)
    (hdup : hasDuplicateEntries l1 = false) :
    ((VerifyArtifactTransparencyLog env e1 tm th tit online).isOk
      = (VerifyArtifactTransparencyLog env e2 tm th tit online).isOk)
    ∧ (∀ ts1 ts2,
        VerifyArtifactTransparencyLog env e1 tm th tit online = .ok ts1 →
        VerifyArtifactTransparencyLog env e2 tm th tit online = .ok ts2 →
        ts1.Perm ts2) := by
  have hlen2 : l2.length ≤ maxAllowedTlogEntries := by
    rw [← hp.length_eq]
    exact hlen
  have hdup2 : hasDuplicateEntries l2 = false := by
    rw [← hasDuplicateEntries_perm hp]
    exact hdup
  rw [verify_unfold h1 hlen hdup hs1 hv1, verify_unfold h2 hlen2 hdup2 hs2 hv2]
  by_cases hf : ∃ x ∈ l1, entryFatal env tm sc.signature vc tit online x = true
  · obtain ⟨m1, he1⟩ := processAll_of_fatal hf [] 0
    have hf2 : ∃ x ∈ l2, entryFatal env tm sc.signature vc tit online x = true := by
      obtain ⟨x, hx, hfx⟩ := hf
      exact ⟨x, hp.mem_iff.mp hx, hfx⟩
    obtain ⟨m2, he2⟩ := processAll_of_fatal hf2 [] 0
    rw [he1, he2]
    constructor
    · rfl
    · intro ts1 ts2 hok1 hok2
      simp at hok1
  · have hnf1 : ∀ x ∈ l1, entryFatal env tm sc.signature vc tit online x = false := by
      intro x hx
      cases hfx : entryFatal env tm sc.signature vc tit online x with
      | false => rfl
      | true => exact absurd ⟨x, hx, hfx⟩ hf
    have hnf2 : ∀ x ∈ l2, entryFatal env tm sc.signature vc tit online x = false :=
      fun x hx => hnf1 x (hp.mem_iff.mpr hx)
    rw [processAll_of_no_fatal hnf1, processAll_of_no_fatal hnf2]
    have hcount : l1.countP (entryCounts env tm sc.signature vc tit online)
        = l2.countP (entryCounts env tm sc.signature vc tit online) :=
      hp.countP_eq _
    have hts : (l1.flatMap (entryTimestamps env tm sc.signature vc tit online)).Perm
        (l2.flatMap (entryTimestamps env tm sc.signature vc tit online)) :=
      hp.flatMap_right _
    rw [hcount]
    simp only [List.nil_append, Nat.zero_add]
    constructor
    · by_cases hc : ((l2.countP (entryCounts env tm sc.signature vc tit online) : Int)) < th
      · simp [hc]
      · simp only [hc, if_false, ite_false]
        rfl
    · intro ts1 ts2 hok1 hok2
      by_cases hc : ((l2.countP (entryCounts env tm sc.signature vc tit online) : Int)) < th
      · simp [hc] at hok1
      · simp [hc] at hok1 hok2
        rw [← hok1, ← hok2]
        exact hts

/-- Witness for C9: swapping a concrete two-entry list preserves the
decision. -/
theorem C9_witness :
    (VerifyArtifactTransparencyLog envOK entityPair tm0 2 true false).isOk
      = (VerifyArtifactTransparencyLog envOK entityPairSwapped tm0 2 true false).isOk :=
  (C9_perm envOK tm0 2 true false entityPair entityPairSwapped
    [entry0, entry3] [entry3, entry0] sc0 vc0 rfl rfl (by decide)
    rfl rfl rfl rfl (by decide) (by decide)).1

/-- Claim C10: the threshold is never validated to be positive: with a
non-positive threshold the operation succeeds whenever no fatal error
occurs, and an empty entry list with threshold 0 returns an empty
timestamp list. -/
theorem C10_nonpositive_threshold :
    (∀ (env : Env) (entity : SignedEntity) (tm : TrustedMaterial) (th : Int)
        (tit online : Bool) (entries : List LogEntry) (sc : SignatureContent)
        (vc : VerificationContent) (ts : List Timestamp) (n : Nat),
        th ≤ 0 →
        entity.tlogEntries = .ok entries →
        entries.length ≤ maxAllowedTlogEntries →
        hasDuplicateEntries entries = false →
        entity.signatureContent = .ok sc →
        entity.verificationContent = .ok vc →
        processAll env tm sc.signature vc tit online entries [] 0 = .ok (ts, n) →
        VerifyArtifactTransparencyLog env entity tm th tit online = .ok ts)
    ∧ (∀ (env : Env) (entity : SignedEntity) (tm : TrustedMaterial)
        (tit online : Bool) (sc : SignatureContent) (vc : VerificationContent),
        entity.tlogEntries = .ok [] →
        entity.signatureContent = .ok sc →
        entity.verificationContent = .ok vc →
        VerifyArtifactTransparencyLog env entity tm 0 tit online = .ok []) := by
  constructor
  · intro env entity tm th tit online entries sc vc ts n hth h1 h2 h3 h4 h5 h6
    rw [verify_unfold h1 h2 h3 h4 h5, h6]
    have hnlt : ¬ ((n : Int) < th) := by omega
    simp [hnlt]
  · intro env entity tm tit online sc vc h1 h4 h5
    rw [verify_unfold h1 (by decide) rfl h4 h5]
    simp [processAll]

/-- Witness for C10: the empty entity passes with thresholds 0 and -1. -/
theorem C10_witness :
    VerifyArtifactTransparencyLog envOK entityNil tm0 (-1) true false = .ok [] ∧
    VerifyArtifactTransparencyLog envOK entityNil tm0 0 true false = .ok [] :=
  ⟨(C10_nonpositive_threshold).1 envOK entityNil tm0 (-1) true false [] sc0 vc0 [] 0
      (by decide) rfl (by decide) rfl rfl rfl rfl,
   (C10_nonpositive_threshold).2 envOK entityNil tm0 true false sc0 vc0 rfl rfl rfl⟩

end Tlog
